import Mathlib

/-!
Shallow embedding of the whatsapp-news-scraper core pipeline:
the record parser (src/parser.js), the watermark store (src/stateManager.js),
the CSV sink (src/exporter.js) and the ingestion coordinator (src/scraper.js).
Strings are modelled through their underlying character lists so that every
definition is executable by the kernel.
-/

/-- Whitespace set used by the JavaScript runtime for String.prototype.trim
and for the regex class backslash-s (the ASCII members plus NBSP and BOM,
which are the ones that can occur in chat text). -/
def jsWsChar (c : Char) : Bool :=
  c = ' ' || c = '\t' || c = '\n' || c = '\r' ||
  c = Char.ofNat 11 || c = Char.ofNat 12 || c = Char.ofNat 160 || c = Char.ofNat 65279

/-- Drop leading and trailing JS whitespace from a character list
(String.prototype.trim). -/
def trimChars (l : List Char) : List Char :=
  ((l.dropWhile jsWsChar).reverse.dropWhile jsWsChar).reverse

/-- String.prototype.trim on packed strings. -/
def jsTrim (s : String) : String :=
  String.mk (trimChars s.data)

/-- Split a character list on newline characters (String.prototype.split
with separator a newline): always returns at least one group. -/
def splitOnNl : List Char → List (List Char)
  | [] => [[]]
  | c :: rest =>
    if c = '\n' then [] :: splitOnNl rest
    else
      match splitOnNl rest with
      | [] => [[c]]
      | g :: gs => (c :: g) :: gs

/-- Substring search on character lists (the semantics of RegExp.test for a
literal alternative, and of String.prototype.includes). -/
def hasSubstr (hay needle : List Char) : Bool :=
  needle.isPrefixOf hay ||
    match hay with
    | [] => false
    | _ :: t => hasSubstr t needle

/-- The apostrophe character, spelled by code point. -/
def apos : Char := Char.ofNat 39

/-- parser.js line 68: sourceTagPattern, a case insensitive test for the
alternatives "chat", the Hebrew tsadi-apostrophe-alef-tet word, and the
Hebrew kuf-bet-vav-tsadi-tav word.  Case folding only affects the Latin
alternative. -/
def sourceTag (line : List Char) : Bool :=
  hasSubstr (line.map Char.toLower) "chat".data ||
  hasSubstr line (['צ', apos] ++ "אט".data) ||
  hasSubstr line "קבוצת".data

/-- parser.js line 51: trim the whole text, split on newlines, keep the
lines whose own trim is non empty. -/
def msgLines (s : String) : List (List Char) :=
  (splitOnNl (trimChars s.data)).filter (fun l => !(trimChars l).isEmpty)

/-- Join character-list lines with a newline separator
(Array.prototype.join with a newline). -/
def joinNl : List (List Char) → List Char
  | [] => []
  | [x] => x
  | x :: xs => x ++ '\n' :: joinNl xs

/-- Try to match the link regex at the head of the list: literal
"https://" (the optional s taken greedily) or "http://", followed by one
or more non-whitespace characters, taken greedily.  Returns the match and
the remainder after it. -/
def matchUrlAt (l : List Char) : Option (List Char × List Char) :=
  let sch8 := "https://".data
  let sch7 := "http://".data
  if sch8.isPrefixOf l then
    let rest := l.drop 8
    let run := rest.takeWhile (fun c => !jsWsChar c)
    if run.isEmpty then none else some (sch8 ++ run, rest.drop run.length)
  else if sch7.isPrefixOf l then
    let rest := l.drop 7
    let run := rest.takeWhile (fun c => !jsWsChar c)
    if run.isEmpty then none else some (sch7 ++ run, rest.drop run.length)
  else none

/-- Global regex scan for parser.js line 75: left to right, non
overlapping, restarting after each match; fueled by the text length. -/
def extractLinksAux : Nat → List Char → List String
  | 0, _ => []
  | _ + 1, [] => []
  | fuel + 1, c :: rest =>
    match matchUrlAt (c :: rest) with
    | some (url, rest') => String.mk url :: extractLinksAux fuel rest'
    | none => extractLinksAux fuel rest

/-- String.prototype.match with the global link regex; empty result models
the null return joined with the default empty array. -/
def extractLinks (content : List Char) : List String :=
  extractLinksAux content.length content

/-- Gregorian civil date from a non-negative count of days since
1970-01-01, the conversion the JS Date getUTC accessors perform
(era-based algorithm, all quantities non negative for days since the
epoch). -/
def civilFromDays (days : Nat) : Nat × Nat × Nat :=
  let z := days + 719468
  let era := z / 146097
  let doe := z % 146097
  let yoe := (doe - doe / 1460 + doe / 36524 - doe / 146096) / 365
  let y := yoe + era * 400
  let doy := doe - (365 * yoe + yoe / 4 - yoe / 100)
  let mp := (5 * doy + 2) / 153
  let d := doy - (153 * mp + 2) / 5 + 1
  let m := if mp < 10 then mp + 3 else mp - 9
  if m ≤ 2 then (y + 1, m, d) else (y, m, d)

/-- String(n).padStart(2, zero) for the numbers the formatter pads. -/
def pad2 (n : Nat) : String :=
  if n < 10 then "0" ++ toString n else toString n

/-- parser.js formatDate: zero padded DD/MM/YYYY from unix seconds, UTC. -/
def formatDate (ts : Nat) : String :=
  let c := civilFromDays (ts / 86400)
  pad2 c.2.2 ++ "/" ++ pad2 c.2.1 ++ "/" ++ toString c.1

/-- parser.js formatTime: zero padded HH:MM from unix seconds, UTC. -/
def formatTime (ts : Nat) : String :=
  pad2 (ts % 86400 / 3600) ++ ":" ++ pad2 (ts % 3600 / 60)

/-- The record produced by parseMessage; sender is attached afterwards by
the coordinator (scraper.js line 62). -/
structure ParsedRecord where
  reporter : String
  content : String
  date : String
  time : String
  links : List String
  hasMedia : Bool
  sender : String := ""
  deriving Repr, DecidableEq

/-- The empty-fields record returned on null, non-string or blank text. -/
def emptyRecord (ts : Nat) (hm : Bool) : ParsedRecord :=
  { reporter := "", content := "", date := formatDate ts, time := formatTime ts,
    links := [], hasMedia := hm }

/-- parser.js parseMessage.  The option models the JS guard on line 39:
none stands for null or a non-string body, and the empty string takes the
same early return because it is falsy. -/
def parseMessage (messageText : Option String) (ts : Nat) (hm : Bool) : ParsedRecord :=
  match messageText with
  | none => emptyRecord ts hm
  | some s =>
    if s = "" then emptyRecord ts hm
    else
      match msgLines s with
      | [] => emptyRecord ts hm
      | l0 :: rest =>
        let contentLs := rest.filter (fun l => !sourceTag l)
        let content := trimChars (joinNl contentLs)
        { reporter := String.mk (trimChars l0), content := String.mk content,
          date := formatDate ts, time := formatTime ts,
          links := extractLinks content, hasMedia := hm }

/-- A raw message as delivered by the message source (whatsapp-web.js):
body may be null (none) and the author and the from field may each be
absent. -/
structure RawMsg where
  body : Option String
  timestamp : Nat
  hasMedia : Bool
  author : Option String := none
  fromField : Option String := none
  deriving Repr, DecidableEq

/-- The chat collaborator: fetchMessages with limit Infinity yields
allMessages, fetchMessages with limit 100 yields recentMessages. -/
structure Chat where
  idSerialized : String
  name : String
  allMessages : List RawMsg
  recentMessages : List RawMsg
  deriving Repr, DecidableEq

/-- stateManager.js: the persisted watermark document.  The option on the
timestamp keeps the JS distinction between null and a number. -/
structure ScraperState where
  chatId : Option String
  chatName : Option String
  lastProcessedTimestamp : Option Nat
  lastRunDate : Option String
  totalMessagesProcessed : Nat
  deriving Repr, DecidableEq

/-- stateManager.js lines 7-14: this.defaultState. -/
def defaultState : ScraperState :=
  { chatId := none, chatName := none, lastProcessedTimestamp := none,
    lastRunDate := none, totalMessagesProcessed := 0 }

/-- stateManager.js loadState at the typed level: a missing or unreadable
file yields the default state; a stored snapshot is returned as is. -/
def loadState (stored : Option ScraperState) : ScraperState :=
  stored.getD defaultState

/-- The strict JS comparison on scraper.js lines 28 and 120:
lastProcessedTimestamp === 0 is true only for the number zero, never for
null. -/
def isZeroSentinel : Option Nat → Bool
  | some 0 => true
  | _ => false

/-- The JS relational comparison msg.timestamp > lastProcessedTimestamp on
scraper.js line 39: null coerces to 0, a number compares as itself. -/
def tsAfter (lp : Option Nat) (m : RawMsg) : Bool :=
  lp.getD 0 < m.timestamp

/-- scraper.js lines 28-42: the fetch mode decision and, in delta mode,
the watermark filter over the hundred recent messages. -/
def fetchedSet (chat : Chat) (isFirstRun : Bool) (st : ScraperState) : List RawMsg :=
  if isFirstRun || isZeroSentinel st.lastProcessedTimestamp then chat.allMessages
  else chat.recentMessages.filter (tsAfter st.lastProcessedTimestamp)

/-- scraper.js line 52: a message is skipped when its body is null,
non-string, or blank after trimming (the empty string is falsy and takes
the same branch). -/
def skipMsg (m : RawMsg) : Bool :=
  match m.body with
  | none => true
  | some b => jsTrim b = ""

/-- JS truthiness for an optional string: null and the empty string are
falsy. -/
def truthyStr : Option String → Option String
  | none => none
  | some s => if s = "" then none else some s

/-- scraper.js line 62: msg.author or msg.from or the empty string. -/
def senderOf (m : RawMsg) : String :=
  ((truthyStr m.author).orElse (fun _ => truthyStr m.fromField)).getD ""

/-- scraper.js lines 49-71: the per-message loop.  parseMessage is total,
so the catch arm for per-message parser exceptions is unreachable and the
loop is a filterMap. -/
def parseBatch (msgs : List RawMsg) : List ParsedRecord :=
  msgs.filterMap fun m =>
    if skipMsg m then none
    else some { parseMessage m.body m.timestamp m.hasMedia with sender := senderOf m }

/-- scraper.js lines 80-82: Math.max over the timestamps of the fetched
list; only evaluated on a non-empty list, where this fold agrees with it. -/
def maxTs : List RawMsg → Nat
  | [] => 0
  | m :: rest => max m.timestamp (maxTs rest)

/-- scraper.js scrapeMessages: load the state, fetch per mode, parse, and
when at least one record was parsed persist the merged state (updateState
re-reads the same stored snapshot and merges the four updated fields over
it, leaving lastRunDate as loaded).  Returns the batch and the stored
document after the cycle. -/
def scrapeMessages (chat : Chat) (isFirstRun : Bool) (stored : Option ScraperState) :
    List ParsedRecord × Option ScraperState :=
  let state := loadState stored
  let fetched := fetchedSet chat isFirstRun state
  let parsed := parseBatch fetched
  if parsed.length > 0 then
    let latest := maxTs fetched
    let newState : ScraperState :=
      { state with
        chatId := some chat.idSerialized
        chatName := some chat.name
        lastProcessedTimestamp := some latest
        totalMessagesProcessed := state.totalMessagesProcessed + parsed.length }
    (parsed, some newState)
  else (parsed, stored)

/-- One line of the CSV destination: the header row or a data row in the
fixed column order date, time, sender, reporter, content, hasMedia,
links. -/
inductive CsvLine
  | header
  | row (date time sender reporter content : String) (hasMedia : Bool) (links : String)
  deriving Repr, DecidableEq

/-- Join links with a comma and a space (exporter.js line 51). -/
def joinLinks : List String → String
  | [] => ""
  | [x] => x
  | x :: xs => x ++ ", " ++ joinLinks xs

/-- exporter.js lines 44-52: the record transform; the JS or-defaults are
identities on the typed record. -/
def toCsvRecord (p : ParsedRecord) : CsvLine :=
  .row p.date p.time p.sender p.reporter p.content p.hasMedia (joinLinks p.links)

/-- exporter.js exportToCSV over a modelled file system (none is a missing
destination).  csv-writer truncates and writes the header row before the
data rows unless asked to append, and the exporter only asks to append
when the destination already exists (lines 21-22). -/
def exportToCSV (messages : List ParsedRecord) (file : Option (List CsvLine))
    (append : Bool) : Option (List CsvLine) :=
  let fileExists := file.isSome
  let shouldAppend := append && fileExists
  let records := messages.map toCsvRecord
  if shouldAppend then some (file.getD [] ++ records)
  else some (CsvLine.header :: records)

/-- The world a cycle acts on: the stored watermark document and the CSV
destination. -/
structure World where
  stored : Option ScraperState
  file : Option (List CsvLine)
  deriving Repr, DecidableEq

/-- The summary scrape returns: the ok form carries messagesProcessed and
isFirstRun; the failed form is the catch-arm summary with success false. -/
inductive CycleResult
  | ok (messagesProcessed : Nat) (isFirstRun : Bool)
  | failed (error : String)
  deriving Repr, DecidableEq

/-- The success flag of a cycle summary. -/
def CycleResult.success : CycleResult → Bool
  | .ok _ _ => true
  | .failed _ => false

/-- scraper.js line 120: isFirstRun as scrape computes it from the loaded
state. -/
def cycleIsFirstRun (w : World) : Bool :=
  isZeroSentinel (loadState w.stored).lastProcessedTimestamp

/-- The batch scrapeMessages returns inside scrape. -/
def cycleBatch (chat : Chat) (w : World) : List ParsedRecord :=
  (scrapeMessages chat (cycleIsFirstRun w) w.stored).1

/-- The stored watermark document after scrapeMessages ran inside scrape. -/
def cycleStored (chat : Chat) (w : World) : Option ScraperState :=
  (scrapeMessages chat (cycleIsFirstRun w) w.stored).2

/-- scraper.js scrape: load state, derive isFirstRun, run scrapeMessages
(which already persisted any watermark advance), then return early on an
empty batch, otherwise write the CSV with append the negation of
isFirstRun.  sinkFails models the sink write raising; the outer catch
turns any such exception into the failed summary instead of rethrowing.
A throwing write may have partially written or truncated the
destination before raising, so the contents it leaves behind are not
determined by the other inputs; failFile is that left-behind state,
supplied as an explicit parameter that theorems quantify over.  It is
only reached when a non-empty batch makes scrape attempt the write. -/
def scrape (chat : Chat) (sinkFails : Bool) (failFile : Option (List CsvLine))
    (w : World) : CycleResult × World :=
  let messages := cycleBatch chat w
  let stored' := cycleStored chat w
  if messages.length = 0 then
    (.ok 0 (cycleIsFirstRun w), { w with stored := stored' })
  else if sinkFails then
    (.failed "sink write failed", { stored := stored', file := failFile })
  else
    (.ok messages.length (cycleIsFirstRun w),
      { stored := stored', file := exportToCSV messages w.file (!cycleIsFirstRun w) })

/-- A JSON value, for the storage-level view of stateManager.loadState. -/
inductive Json
  | null
  | bool (b : Bool)
  | num (n : Int)
  | str (s : String)
  | arr (elems : List Json)
  | obj (fields : List (String × Json))

/-- The JSON document JSON.stringify produces for the default state. -/
def defaultStateJson : Json :=
  .obj [("chatId", .null), ("chatName", .null), ("lastProcessedTimestamp", .null),
        ("lastRunDate", .null), ("totalMessagesProcessed", .num 0)]

/-- stateManager.js lines 16-25 at the storage level: readResult none
models fs.readFile throwing (file absent or unreadable) or JSON.parse
throwing (contents not syntactically JSON) — both land in the catch arm,
which returns a copy of the default state.  some j models JSON.parse
succeeding with value j, which loadState returns as is, with no check
that j has the watermark shape. -/
def loadStateJson (readResult : Option Json) : Json :=
  match readResult with
  | some j => j
  | none => defaultStateJson

/-- Every member timestamp is bounded by maxTs. -/
theorem maxTs_ge_of_mem {m : RawMsg} {l : List RawMsg} (h : m ∈ l) :
    m.timestamp ≤ maxTs l := by
  induction l with
  | nil => cases h
  | cons a t ih =>
    rcases List.mem_cons.mp h with h1 | h2
    · subst h1; exact le_max_left _ _
    · exact le_trans (ih h2) (le_max_right _ _)

/-- maxTs is at most any bound that dominates every member timestamp. -/
theorem maxTs_le {l : List RawMsg} {b : Nat} (h : ∀ m ∈ l, m.timestamp ≤ b) :
    maxTs l ≤ b := by
  induction l with
  | nil => exact Nat.zero_le b
  | cons a t ih =>
    simp only [maxTs, max_le_iff]
    exact ⟨h a (List.mem_cons_self a t), ih fun m hm => h m (List.mem_cons_of_mem a hm)⟩

/-- tsAfter spelled out. -/
theorem tsAfter_iff (lp : Option Nat) (m : RawMsg) :
    tsAfter lp m = true ↔ lp.getD 0 < m.timestamp := by
  simp [tsAfter]

/-- When the watermark filter keeps at least one message, the maximum
timestamp of the kept messages equals the maximum over the whole fetched
list: every discarded message is at or below the watermark, hence below
every kept one. -/
theorem maxTs_filter_tsAfter (lp : Option Nat) (l : List RawMsg)
    (hne : l.filter (tsAfter lp) ≠ []) :
    maxTs (l.filter (tsAfter lp)) = maxTs l := by
  obtain ⟨k, hk⟩ := List.exists_mem_of_ne_nil _ hne
  have hkgt : lp.getD 0 < k.timestamp :=
    (tsAfter_iff lp k).mp (List.of_mem_filter hk)
  have hkmax : k.timestamp ≤ maxTs (l.filter (tsAfter lp)) := maxTs_ge_of_mem hk
  apply le_antisymm
  · exact maxTs_le fun m hm => maxTs_ge_of_mem (List.mem_of_mem_filter hm)
  · refine maxTs_le fun m hm => ?_
    by_cases hp : tsAfter lp m = true
    · exact maxTs_ge_of_mem (List.mem_filter.mpr ⟨hm, hp⟩)
    · have : m.timestamp ≤ lp.getD 0 := by
        have := (tsAfter_iff lp m).not.mp hp
        omega
      omega

/-- The kept maximum strictly exceeds the watermark when the filter keeps
anything. -/
theorem maxTs_filter_gt (lp : Option Nat) (l : List RawMsg)
    (hne : l.filter (tsAfter lp) ≠ []) :
    lp.getD 0 < maxTs (l.filter (tsAfter lp)) := by
  obtain ⟨k, hk⟩ := List.exists_mem_of_ne_nil _ hne
  have hkgt : lp.getD 0 < k.timestamp :=
    (tsAfter_iff lp k).mp (List.of_mem_filter hk)
  exact lt_of_lt_of_le hkgt (maxTs_ge_of_mem hk)

/-- A batch in which every message is skipped parses to nothing. -/
theorem parseBatch_eq_nil {l : List RawMsg} (h : ∀ m ∈ l, skipMsg m = true) :
    parseBatch l = [] := by
  induction l with
  | nil => rfl
  | cons a t ih =>
    have ha := h a (List.mem_cons_self a t)
    simp only [parseBatch, List.filterMap_cons, ha, if_true]
    exact ih fun m hm => h m (List.mem_cons_of_mem a hm)

/-- A non-empty batch comes from a non-empty fetched list. -/
theorem fetched_ne_nil_of_parseBatch {l : List RawMsg} (h : parseBatch l ≠ []) :
    l ≠ [] := by
  intro hl
  subst hl
  exact h rfl

/-- C5 counterexample: the file content 42 parses as JSON, is not a valid
watermark, yet loadState returns it as is instead of the default
watermark, so the claim fails as stated. -/
theorem load_json_value_returned_unvalidated_cex :
    loadStateJson (some (Json.num 42)) = Json.num 42 ∧ Json.num 42 ≠ defaultStateJson :=
  ⟨rfl, fun h => Json.noConfusion h⟩

/-- C5 amended: when the persisted storage is absent or unreadable, or its
contents fail to parse as JSON at all, loadState returns the default
watermark and never raises; contents that do parse as JSON are returned
as is, with no validation against the watermark schema. -/
theorem load_default_on_unreadable_or_unparseable :
    loadStateJson none = defaultStateJson ∧ ∀ j : Json, loadStateJson (some j) = j :=
  ⟨rfl, fun _ => rfl⟩

/-- C7 counterexample: timestamp 1707580800 is 2024-02-10T16:00:00Z, so the
time field of the scenario record is 16:00, not the 12:00 the claim
states. -/
theorem scenario_time_field_cex :
    (parseMessage (some "Reporter Name\nline one\nhttps://a.test/x line two")
        1707580800 false).time ≠ "12:00" ∧
    (parseMessage (some "Reporter Name\nline one\nhttps://a.test/x line two")
        1707580800 false).time = "16:00" := by
  decide

/-- C7 amended: parseMessage on the scenario text with timestamp
1707580800 and hasMedia false returns reporter Reporter Name, the two
content lines joined by a newline, date 10/02/2024, time 16:00 (UTC,
zero padded; 1707580800 is 2024-02-10T16:00:00Z), and the single link in
order of first appearance. -/
theorem scenario_parse_record_fields :
    parseMessage (some "Reporter Name\nline one\nhttps://a.test/x line two") 1707580800 false =
      { reporter := "Reporter Name", content := "line one\nhttps://a.test/x line two",
        date := "10/02/2024", time := "16:00", links := ["https://a.test/x"],
        hasMedia := false, sender := "" } := by
  decide

/-- C8: parseMessage is total and pure by construction in this embedding;
for null or non-string text (none) and for text that is empty after
trimming, it returns the record with empty reporter, content and links,
the formatted date and time from the timestamp, and the given hasMedia. -/
theorem parse_degenerate_input_empty_fields (mt : Option String) (ts : Nat) (hm : Bool)
    (h : mt = none ∨ ∃ s, mt = some s ∧ jsTrim s = "") :
    parseMessage mt ts hm =
      { reporter := "", content := "", date := formatDate ts, time := formatTime ts,
        links := [], hasMedia := hm, sender := "" } := by
  rcases h with h | ⟨s, hs, hts⟩
  · subst h; rfl
  · subst hs
    have hnil : trimChars s.data = [] := by
      have hd := congrArg String.data hts
      simpa [jsTrim] using hd
    by_cases hse : s = ""
    · subst hse; rfl
    · have hml : msgLines s = [] := by
        unfold msgLines
        rw [hnil]
        decide
      simp [parseMessage, hse, hml, emptyRecord]

/-- Witness for C8 at whitespace-only text and timestamp zero. -/
theorem parse_degenerate_input_empty_fields_witness :
    parseMessage (some "  \n ") 0 true =
      { reporter := "", content := "", date := formatDate 0, time := formatTime 0,
        links := [], hasMedia := true, sender := "" } :=
  parse_degenerate_input_empty_fields (some "  \n ") 0 true
    (Or.inr ⟨"  \n ", rfl, by decide⟩)

/-- The first component of scrapeMessages is the parsed batch in either
branch. -/
theorem scrapeMessages_fst (chat : Chat) (fr : Bool) (stored : Option ScraperState) :
    (scrapeMessages chat fr stored).1 =
      parseBatch (fetchedSet chat fr (loadState stored)) := by
  unfold scrapeMessages
  by_cases h : (parseBatch (fetchedSet chat fr (loadState stored))).length > 0 <;> simp [h]

/-- With an empty batch, scrapeMessages leaves the stored document
untouched. -/
theorem scrapeMessages_snd_of_nil (chat : Chat) (fr : Bool) (stored : Option ScraperState)
    (h : parseBatch (fetchedSet chat fr (loadState stored)) = []) :
    (scrapeMessages chat fr stored).2 = stored := by
  unfold scrapeMessages
  simp [h]

/-- With a non-empty batch, scrapeMessages persists the merged state whose
watermark is the maximum timestamp of the fetched list. -/
theorem scrapeMessages_snd_of_ne (chat : Chat) (fr : Bool) (stored : Option ScraperState)
    (h : parseBatch (fetchedSet chat fr (loadState stored)) ≠ []) :
    (scrapeMessages chat fr stored).2 =
      some
        { loadState stored with
          chatId := some chat.idSerialized
          chatName := some chat.name
          lastProcessedTimestamp := some (maxTs (fetchedSet chat fr (loadState stored)))
          totalMessagesProcessed := (loadState stored).totalMessagesProcessed +
            (parseBatch (fetchedSet chat fr (loadState stored))).length } := by
  unfold scrapeMessages
  have hlen : (parseBatch (fetchedSet chat fr (loadState stored))).length > 0 :=
    List.length_pos.mpr h
  simp [hlen]

/-- In every branch, scrape persists exactly what scrapeMessages decided. -/
theorem scrape_stored (chat : Chat) (sinkFails : Bool) (failFile : Option (List CsvLine))
    (w : World) :
    (scrape chat sinkFails failFile w).2.stored = cycleStored chat w := by
  unfold scrape
  by_cases h1 : (cycleBatch chat w).length = 0 <;> by_cases h2 : sinkFails <;> simp [h1, h2]

def msgA : RawMsg := { body := some "Alpha\nfirst body", timestamp := 10, hasMedia := false }

def msgB : RawMsg := { body := some "Beta\nsecond body", timestamp := 20, hasMedia := false }

/-- A chat whose full history has two messages but whose recent window
only has the later one: backfill and delta are observably different. -/
def chatC1 : Chat :=
  { idSerialized := "123@g.us", name := "News", allMessages := [msgA, msgB],
    recentMessages := [msgB] }

/-- World for the first-run scenario: no persisted watermark document, and
a destination that already holds a header and one data row. -/
def w0C1 : World :=
  { stored := none,
    file := some [CsvLine.header, CsvLine.row "d" "t" "s" "r" "c" false ""] }

/-- C1: the claim fails on the code.  With the default watermark
(lastProcessedTimestamp null), scrape computes isFirstRun with a strict
=== 0 comparison that null does not satisfy, so the cycle is a delta
cycle: only the recent window is fetched (one message processed, not the
two in the full history), the summary reports isFirstRun false, the
export appends to the prior destination contents instead of rewriting
them (append true), and the watermark still advances to 20. -/
theorem default_watermark_cycle_is_delta_append :
    (scrape chatC1 false none w0C1).1 = CycleResult.ok 1 false ∧
    (scrape chatC1 false none w0C1).2.file =
      some ([CsvLine.header, CsvLine.row "d" "t" "s" "r" "c" false ""] ++
        (parseBatch [msgB]).map toCsvRecord) ∧
    ((scrape chatC1 false none w0C1).2.stored.getD defaultState).lastProcessedTimestamp
      = some 20 := by
  decide

/-- Chat and world for the sink-failure scenario: a valid watermark at
1000 and one new recent message at 1500. -/
def chatC2 : Chat :=
  { idSerialized := "2@g.us", name := "News2", allMessages := [],
    recentMessages := [{ body := some "Rep\nhello", timestamp := 1500, hasMedia := false }] }

def w0C2 : World :=
  { stored := some
      { chatId := some "2@g.us", chatName := some "News2",
        lastProcessedTimestamp := some 1000, lastRunDate := none,
        totalMessagesProcessed := 7 },
    file := some [CsvLine.header] }

/-- C2 counterexample: when the sink write raises, the cycle does report
success false, but the persisted watermark is NOT unchanged from its
value at cycle start: scrapeMessages already advanced it from 1000 to
1500 before scrape attempted the sink write. -/
theorem sink_failure_updates_watermark_cex :
    (scrape chatC2 true none w0C2).1.success = false ∧
    (loadState w0C2.stored).lastProcessedTimestamp = some 1000 ∧
    (loadState (scrape chatC2 true none w0C2).2.stored).lastProcessedTimestamp = some 1500 := by
  decide

/-- C2 amended: for every cycle whose batch is non-empty and whose sink
write raises -- whatever state the failed write leaves the destination
in -- the exception is surfaced as a failed-cycle result (success false)
rather than thrown past scrape; but the watermark update is not
prevented: the persisted document at cycle end is the one scrapeMessages
already saved before the write was attempted. -/
theorem sink_failure_reported_not_thrown (chat : Chat) (failFile : Option (List CsvLine))
    (w : World) (h : cycleBatch chat w ≠ []) :
    (scrape chat true failFile w).1.success = false ∧
    (scrape chat true failFile w).2.stored = cycleStored chat w := by
  unfold scrape
  have hlen : ¬(cycleBatch chat w).length = 0 := by
    simpa [List.length_eq_zero] using h
  simp [hlen, CycleResult.success]

/-- Witness for the amended C2 at the concrete sink-failure scenario. -/
theorem sink_failure_reported_not_thrown_witness :
    (scrape chatC2 true none w0C2).1.success = false ∧
    (scrape chatC2 true none w0C2).2.stored = cycleStored chatC2 w0C2 :=
  sink_failure_reported_not_thrown chatC2 none w0C2 (by decide)

/-- C6: if every message in the cycle's fetched set is skipped for a null,
non-string or blank body, the batch is empty and the cycle is a no-op:
the summary is success with zero processed, and both the persisted
watermark document and the destination file are exactly as before. -/
theorem empty_batch_cycle_noop (chat : Chat) (sinkFails : Bool)
    (failFile : Option (List CsvLine)) (w : World)
    (h : ∀ m ∈ fetchedSet chat (cycleIsFirstRun w) (loadState w.stored), skipMsg m = true) :
    (scrape chat sinkFails failFile w).1 = CycleResult.ok 0 (cycleIsFirstRun w) ∧
    (scrape chat sinkFails failFile w).2 = w := by
  have hb : cycleBatch chat w = [] := by
    unfold cycleBatch
    rw [scrapeMessages_fst]
    exact parseBatch_eq_nil h
  have hs : cycleStored chat w = w.stored := by
    unfold cycleStored
    exact scrapeMessages_snd_of_nil chat _ w.stored (by rw [← scrapeMessages_fst, ← cycleBatch]; exact hb)
  unfold scrape
  simp [hb, hs]

/-- Witness for C6: one fetched message with a whitespace body. -/
def chatC6 : Chat :=
  { idSerialized := "6@g.us", name := "News6", allMessages := [],
    recentMessages := [{ body := some "  ", timestamp := 50, hasMedia := true }] }

def w0C6 : World :=
  { stored := some
      { chatId := none, chatName := none, lastProcessedTimestamp := some 40,
        lastRunDate := none, totalMessagesProcessed := 3 },
    file := some [CsvLine.header] }

theorem empty_batch_cycle_noop_witness :
    (scrape chatC6 false none w0C6).1 = CycleResult.ok 0 (cycleIsFirstRun w0C6) ∧
    (scrape chatC6 false none w0C6).2 = w0C6 :=
  empty_batch_cycle_noop chatC6 false none w0C6 (by decide)

/-- The zero sentinel test characterised. -/
theorem isZeroSentinel_true_iff (o : Option Nat) :
    isZeroSentinel o = true ↔ o = some 0 := by
  cases o with
  | none => simp [isZeroSentinel]
  | some n => cases n <;> simp [isZeroSentinel]

/-- C3: in every delta-mode cycle that performs a watermark update (the
parsed batch is non-empty), the persisted lastProcessedTimestamp becomes
the maximum timestamp over the whole recent fetched window -- including
the messages the watermark filter discarded (each of those sits at or
below the old watermark, so it cannot raise the maximum past a kept
message) and the messages skipped for blank body (they stay in the
fetched list the maximum is taken over). -/
theorem delta_new_watermark_is_max_of_fetched (chat : Chat) (stored : Option ScraperState)
    (hmode : isZeroSentinel (loadState stored).lastProcessedTimestamp = false)
    (hupd : (scrapeMessages chat false stored).1 ≠ []) :
    ∃ st', (scrapeMessages chat false stored).2 = some st' ∧
      st'.lastProcessedTimestamp = some (maxTs chat.recentMessages) := by
  have hfe : fetchedSet chat false (loadState stored) =
      chat.recentMessages.filter (tsAfter (loadState stored).lastProcessedTimestamp) := by
    simp [fetchedSet, hmode]
  have hb : parseBatch (fetchedSet chat false (loadState stored)) ≠ [] := by
    rw [← scrapeMessages_fst]; exact hupd
  have hfne : chat.recentMessages.filter
      (tsAfter (loadState stored).lastProcessedTimestamp) ≠ [] := by
    rw [← hfe]; exact fetched_ne_nil_of_parseBatch hb
  refine ⟨_, scrapeMessages_snd_of_ne chat false stored hb, ?_⟩
  simp only [hfe]
  rw [maxTs_filter_tsAfter _ _ hfne]

/-- The delta scenario: watermark 1000, recent window with timestamps
900, 1500, 1200. -/
def stC3 : ScraperState :=
  { chatId := none, chatName := none, lastProcessedTimestamp := some 1000,
    lastRunDate := none, totalMessagesProcessed := 0 }

def chatC3 : Chat :=
  { idSerialized := "3@g.us", name := "News3", allMessages := [],
    recentMessages :=
      [{ body := some "R\na", timestamp := 900, hasMedia := false },
       { body := some "R\nb", timestamp := 1500, hasMedia := false },
       { body := some "R\nc", timestamp := 1200, hasMedia := false }] }

/-- Witness for C3: with watermark 1000 and fetched timestamps 900, 1500,
1200, the new watermark is 1500. -/
theorem delta_new_watermark_is_max_of_fetched_witness :
    (∃ st', (scrapeMessages chatC3 false (some stC3)).2 = some st' ∧
      st'.lastProcessedTimestamp = some (maxTs chatC3.recentMessages)) ∧
    maxTs chatC3.recentMessages = 1500 :=
  ⟨delta_new_watermark_is_max_of_fetched chatC3 (some stC3) (by decide) (by decide),
   by decide⟩

/-- The persisted watermark read as the number the next cycle compares
against (null reads as 0, the first-run sentinel value). -/
def wmOf (stored : Option ScraperState) : Nat :=
  (loadState stored).lastProcessedTimestamp.getD 0

/-- The watermark never moves backwards in a single cycle, whatever the
mode and outcome. -/
theorem stored_watermark_mono (chat : Chat) (w : World) :
    wmOf w.stored ≤ wmOf (cycleStored chat w) := by
  unfold cycleStored
  by_cases hp : parseBatch (fetchedSet chat (cycleIsFirstRun w) (loadState w.stored)) = []
  · rw [scrapeMessages_snd_of_nil _ _ _ hp]
  · rw [scrapeMessages_snd_of_ne _ _ _ hp]
    have hr : wmOf (some
        { loadState w.stored with
          chatId := some chat.idSerialized
          chatName := some chat.name
          lastProcessedTimestamp :=
            some (maxTs (fetchedSet chat (cycleIsFirstRun w) (loadState w.stored)))
          totalMessagesProcessed := (loadState w.stored).totalMessagesProcessed +
            (parseBatch (fetchedSet chat (cycleIsFirstRun w) (loadState w.stored))).length }) =
        maxTs (fetchedSet chat (cycleIsFirstRun w) (loadState w.stored)) := by
      simp [wmOf, loadState]
    rw [hr]
    by_cases hfr : cycleIsFirstRun w = true
    · have h0 : (loadState w.stored).lastProcessedTimestamp = some 0 :=
        (isZeroSentinel_true_iff _).mp hfr
      have hz : wmOf w.stored = 0 := by simp [wmOf, h0]
      rw [hz]
      exact Nat.zero_le _
    · have hfr' : cycleIsFirstRun w = false := by
        cases hc : cycleIsFirstRun w
        · rfl
        · exact absurd hc hfr
      have hsent : isZeroSentinel (loadState w.stored).lastProcessedTimestamp = false := hfr'
      have hfe : fetchedSet chat (cycleIsFirstRun w) (loadState w.stored) =
          chat.recentMessages.filter
            (tsAfter (loadState w.stored).lastProcessedTimestamp) := by
        simp [fetchedSet, hfr', hsent]
      rw [hfe]
      have hfne : chat.recentMessages.filter
          (tsAfter (loadState w.stored).lastProcessedTimestamp) ≠ [] := by
        rw [← hfe]; exact fetched_ne_nil_of_parseBatch hp
      have hlt := maxTs_filter_gt (loadState w.stored).lastProcessedTimestamp
        chat.recentMessages hfne
      exact le_of_lt hlt

/-- C4: across any successful cycle, the persisted lastProcessedTimestamp
after the cycle is at least its value before it, so over a sequence of
successful cycles the watermark is monotonically non-decreasing. -/
theorem watermark_monotone_per_cycle (chat : Chat) (sinkFails : Bool)
    (failFile : Option (List CsvLine)) (w : World)
    (hsucc : (scrape chat sinkFails failFile w).1.success = true) :
    wmOf w.stored ≤ wmOf (scrape chat sinkFails failFile w).2.stored := by
  rw [scrape_stored]
  exact stored_watermark_mono chat w

/-- Witness for C4: a successful delta cycle starting from the default
watermark. -/
def chatC4 : Chat :=
  { idSerialized := "4@g.us", name := "News4", allMessages := [],
    recentMessages := [{ body := some "R\nx", timestamp := 5, hasMedia := false }] }

def w0C4 : World := { stored := none, file := none }

theorem watermark_monotone_per_cycle_witness :
    wmOf w0C4.stored ≤ wmOf (scrape chatC4 false none w0C4).2.stored :=
  watermark_monotone_per_cycle chatC4 false none w0C4 (by decide)

/-- Header-row recogniser for counting. -/
def isHeaderLine : CsvLine → Bool
  | .header => true
  | .row .. => false

/-- Number of header rows in a destination's contents. -/
def countHeaders (l : List CsvLine) : Nat := (l.filter isHeaderLine).length

/-- Number of header rows in a possibly missing destination. -/
def countHeadersO (f : Option (List CsvLine)) : Nat := countHeaders (f.getD [])

/-- A sequence of repeated write calls with append true against the same
destination. -/
def appendSeq (batches : List (List ParsedRecord)) (f : Option (List CsvLine)) :
    Option (List CsvLine) :=
  batches.foldl (fun acc msgs => exportToCSV msgs acc true) f

/-- Data rows are never header rows. -/
theorem filter_header_map (msgs : List ParsedRecord) :
    (msgs.map toCsvRecord).filter isHeaderLine = [] := by
  induction msgs with
  | nil => rfl
  | cons a t ih => simp [List.filter_cons, toCsvRecord, isHeaderLine, ih]

/-- Header count after one write: unchanged by a genuine append, exactly
one after any create-mode write. -/
theorem countHeadersO_export (msgs : List ParsedRecord) (f : Option (List CsvLine))
    (append : Bool) :
    countHeadersO (exportToCSV msgs f append) =
      if append && f.isSome then countHeadersO f else 1 := by
  unfold exportToCSV countHeadersO
  by_cases h : (append && f.isSome) = true
  · simp [h, countHeaders, List.filter_append, filter_header_map]
  · simp [h, countHeaders, List.filter_cons, isHeaderLine, filter_header_map]

/-- The at-most-one-header bound is preserved by any sequence of append
writes. -/
theorem appendSeq_headers_le (batches : List (List ParsedRecord))
    (f : Option (List CsvLine)) (h : countHeadersO f ≤ 1) :
    countHeadersO (appendSeq batches f) ≤ 1 := by
  induction batches generalizing f with
  | nil => simpa [appendSeq] using h
  | cons b bs ih =>
    show countHeadersO (appendSeq bs (exportToCSV b f true)) ≤ 1
    refine ih _ ?_
    rw [countHeadersO_export]
    by_cases hs : f.isSome <;> simp [hs, h]

/-- C9: a write with append true against a missing destination behaves as
the create case (header row then data rows, the same result as append
false); the header is written exactly when the call is not an append to
an existing destination; and any sequence of append-true writes keeps the
header count at most one. -/
theorem csv_header_at_most_one (msgs : List ParsedRecord) (append : Bool)
    (batches : List (List ParsedRecord)) (f : Option (List CsvLine))
    (h : countHeadersO f ≤ 1) :
    exportToCSV msgs none true = some (CsvLine.header :: msgs.map toCsvRecord) ∧
    exportToCSV msgs none true = exportToCSV msgs none false ∧
    countHeadersO (exportToCSV msgs f append) =
      (if append && f.isSome then countHeadersO f else 1) ∧
    countHeadersO (appendSeq batches f) ≤ 1 :=
  ⟨rfl, rfl, countHeadersO_export msgs f append, appendSeq_headers_le batches f h⟩

/-- Witness for C9 at an existing one-header destination and two further
append writes. -/
theorem csv_header_at_most_one_witness :
    exportToCSV [] none true = some (CsvLine.header :: ([] : List ParsedRecord).map toCsvRecord) ∧
    exportToCSV [] none true = exportToCSV [] none false ∧
    countHeadersO (exportToCSV [] (some [CsvLine.header]) true) =
      (if true && (some [CsvLine.header] : Option (List CsvLine)).isSome
        then countHeadersO (some [CsvLine.header]) else 1) ∧
    countHeadersO (appendSeq [[], []] (some [CsvLine.header])) ≤ 1 :=
  csv_header_at_most_one [] true [[], []] (some [CsvLine.header]) (by decide)

/-- C10 counterexample: the second line matches the source-tag pattern and
is dropped from content, and the URL on it does appear on that dropped
line; yet the URL is still present in links, because the same URL also
occurs on a surviving line.  The unqualified absent-from-links part of
the claim is therefore false. -/
theorem dropped_line_url_in_links_cex :
    sourceTag "https://a.test/1 from the chat".data = true ∧
    hasSubstr "https://a.test/1 from the chat".data "https://a.test/1".data = true ∧
    (parseMessage (some "Rep\nhttps://a.test/1 from the chat\nhttps://a.test/1") 0 false).content
      = "https://a.test/1" ∧
    (parseMessage (some "Rep\nhttps://a.test/1 from the chat\nhttps://a.test/1") 0 false).links
      = ["https://a.test/1"] := by
  decide

/-- C10 amended: the first non-blank line always becomes the reporter and
is never removed by the source-tag filter even when it matches the
pattern; every subsequent line matching the pattern (case insensitive,
anywhere in the line) is dropped from the surviving content lines; and
links are extracted solely from the surviving content, so a URL that
appears only on dropped lines is absent from links. -/
theorem reporter_kept_tag_lines_dropped (s : String) (ts : Nat) (hm : Bool)
    (l0 : List Char) (ls : List (List Char)) (h : msgLines s = l0 :: ls) :
    (parseMessage (some s) ts hm).reporter = String.mk (trimChars l0) ∧
    (∀ l ∈ ls, sourceTag l = true → l ∉ ls.filter (fun l' => !sourceTag l')) ∧
    (parseMessage (some s) ts hm).links =
      extractLinks (trimChars (joinNl (ls.filter (fun l' => !sourceTag l')))) := by
  have hse : s ≠ "" := by
    intro he
    rw [he] at h
    have hnil : msgLines "" = [] := rfl
    rw [hnil] at h
    exact List.noConfusion h
  refine ⟨?_, ?_, ?_⟩
  · simp [parseMessage, hse, h]
  · intro l hl hst
    simp [List.mem_filter, hst]
  · simp [parseMessage, hse, h]

/-- The C10 witness text: a reporter line that itself matches the pattern,
a mid-position upper-case tag line, and a surviving content line. -/
def sC10 : String := "Main chat\nCHAT update mid line\nreal content here"

theorem reporter_kept_tag_lines_dropped_witness :
    ((parseMessage (some sC10) 0 false).reporter = String.mk (trimChars "Main chat".data) ∧
     (∀ l ∈ ["CHAT update mid line".data, "real content here".data],
        sourceTag l = true →
          l ∉ ["CHAT update mid line".data, "real content here".data].filter
            (fun l' => !sourceTag l')) ∧
     (parseMessage (some sC10) 0 false).links =
       extractLinks (trimChars (joinNl
         (["CHAT update mid line".data, "real content here".data].filter
           (fun l' => !sourceTag l'))))) ∧
    sourceTag "Main chat".data = true :=
  ⟨reporter_kept_tag_lines_dropped sC10 0 false "Main chat".data
     ["CHAT update mid line".data, "real content here".data] (by decide), by decide⟩
